import Mathlib

/-!
Verification development for the polybacker copy-trading engine.

Shallow embedding of the core pipeline of `src/polybacker`:
`copy_trader.py` (admission, sizing, limit pricing, execution),
`fund_manager.py` (fund sizing and the fund polling step),
`arbitrage.py` (opportunity detection and two-leg execution) and
`db.py` (daily-spend aggregation, dedup ledger, position upsert,
fund invest/withdraw).

Modelling conventions:
* Python floats are modelled as exact rationals (`ℚ`).
* `round(x, n)` is modelled as exact half-to-even rounding of `x * 10^n`.
* Upstream trade dictionaries are modelled as a record carrying exactly the
  keys the code reads; a key that may be absent or `None` is an `Option`.
  The two spellings `transaction_hash` / `transactionHash` are collapsed
  into one field, and `side` is taken post-`.upper()` normalisation.
* Database tables are Lean lists of row records; SQL aggregates become
  list folds over the same filters the queries use.
* Addresses are taken already lower-cased (the code lower-cases at entry).
-/

namespace Polybacker

/-- Half-to-even integer rounding, the tie-breaking rule of Python `round`. -/
def roundHalfEven (q : ℚ) : ℤ :=
  let f := ⌊q⌋
  if q - f < 1/2 then f
  else if q - f > 1/2 then f + 1
  else if f % 2 = 0 then f else f + 1

/-- Python `round(x, 2)` on exact rationals. -/
def round2 (q : ℚ) : ℚ := (roundHalfEven (q * 100) : ℚ) / 100

/-- Python `round(x, 4)` on exact rationals. -/
def round4 (q : ℚ) : ℚ := (roundHalfEven (q * 10000) : ℚ) / 10000

/-- The global `Settings` fields the core pipeline reads (`config.py`). -/
structure Settings where
  copy_percentage : ℚ
  min_copy_size : ℚ
  max_copy_size : ℚ
  max_daily_spend : ℚ
  max_trade_age : ℚ
  order_mode : String
  max_slippage : ℚ
  min_profit_pct : ℚ
  trade_amount : ℚ
  max_position_size : ℚ
deriving DecidableEq, Repr

/-- The default values of `config.py`. -/
def defaultSettings : Settings where
  copy_percentage := 1/10
  min_copy_size := 5
  max_copy_size := 100
  max_daily_spend := 500
  max_trade_age := 300
  order_mode := "limit"
  max_slippage := 1/50
  min_profit_pct := 1
  trade_amount := 10
  max_position_size := 100

/-- An upstream trade record, with exactly the keys the engine reads.
`timestamp` is the parse result of `_parse_trade_time` in UTC seconds. -/
structure UpstreamTrade where
  id : Option String
  trade_id : Option String
  transaction_hash : Option String
  asset_id : Option String
  token_id : Option String
  asset : Option String
  side : String
  size : ℚ
  price : ℚ
  timestamp : Option ℚ
deriving DecidableEq, Repr

/-- Python `a or b` restricted to optional strings (empty string is falsy). -/
def orStr : Option String → Option String → Option String
  | some a, b => if a = "" then b else some a
  | none, b => b

/-- Renders an optional timestamp for the fallback fingerprint. -/
def ts_str : Option ℚ → String
  | some q => toString q
  | none => ""

/-- Model of `CopyTrader._get_trade_id`: fingerprint of an upstream trade. -/
def get_trade_id (t : UpstreamTrade) : String :=
  match orStr t.id (orStr t.trade_id t.transaction_hash) with
  | some s => s
  | none => (t.asset_id.getD (t.asset.getD "")) ++ "_" ++ ts_str t.timestamp

/-- The truthy value of `asset_id or token_id or asset`, `none` when falsy. -/
def usable_token (t : UpstreamTrade) : Option String :=
  match orStr t.asset_id (orStr t.token_id t.asset) with
  | some s => if s = "" then none else some s
  | none => none

/-- A followed-trader row: address plus the nullable per-trader overrides. -/
structure FollowedTrader where
  address : String
  copy_percentage : Option ℚ
  min_copy_size : Option ℚ
  max_copy_size : Option ℚ
  max_daily_spend : Option ℚ
  limit_order_pct : Option ℚ
  order_mode : Option String
deriving DecidableEq, Repr

/-- The result of `CopyTrader._resolve_settings`. -/
structure ResolvedSettings where
  copy_percentage : ℚ
  min_copy_size : ℚ
  max_copy_size : ℚ
  max_daily_spend : ℚ
  limit_order_pct : ℚ
  order_mode : String
deriving DecidableEq, Repr

/-- Model of `CopyTrader._resolve_settings`: per-trader override if set, else global
default; `order_mode` uses a truthiness check (empty string falls back). -/
def resolve_settings (s : Settings) (tr : FollowedTrader) : ResolvedSettings where
  copy_percentage := tr.copy_percentage.getD s.copy_percentage
  min_copy_size := tr.min_copy_size.getD s.min_copy_size
  max_copy_size := tr.max_copy_size.getD s.max_copy_size
  max_daily_spend := tr.max_daily_spend.getD s.max_daily_spend
  limit_order_pct := tr.limit_order_pct.getD (s.max_slippage * 100)
  order_mode :=
    match tr.order_mode with
    | some m => if m = "" then s.order_mode else m
    | none => s.order_mode

/-- The rejection tags of `CopyTrader.should_copy` (the code formats these
as strings with extra payload; only the tag is semantically relevant). -/
inductive RejectReason where
  | alreadySeen
  | tooOld
  | noToken
  | invalidSide
  | globalDailyLimit
  | traderDailyLimit
deriving DecidableEq, Repr

/-- Outcome of `should_copy`: a rejection (recording whether the fingerprint
was marked seen on the way out) or acceptance. -/
inductive CopyDecision where
  | reject (reason : RejectReason) (marked : Bool)
  | accept
deriving DecidableEq, Repr

/-- Model of `side in ("BUY", "SELL")`. -/
def side_ok (side : String) : Bool := side == "BUY" || side == "SELL"

/-- The staleness test shared by both workers: a parsed timestamp older
than `max_trade_age` seconds; a trade with no parseable timestamp is
never stale. -/
def trade_is_stale (s : Settings) (t : UpstreamTrade) (now : ℚ) : Bool :=
  match t.timestamp with
  | some ts => decide (now - ts > s.max_trade_age)
  | none => false

/-- Model of `CopyTrader.should_copy`, with the daily-spend reads passed in as the
values the database queries would return. -/
def should_copy (seen : List String) (s : Settings) (tr : FollowedTrader)
    (t : UpstreamTrade) (now daily_spend trader_daily : ℚ) : CopyDecision :=
  let tid := get_trade_id t
  let resolved := resolve_settings s tr
  if tid ∈ seen then CopyDecision.reject RejectReason.alreadySeen false
  else
    if trade_is_stale s t now then CopyDecision.reject RejectReason.tooOld true
    else if (usable_token t).isNone then CopyDecision.reject RejectReason.noToken true
    else if ¬ side_ok t.side then CopyDecision.reject RejectReason.invalidSide true
    else if daily_spend ≥ s.max_daily_spend then
      CopyDecision.reject RejectReason.globalDailyLimit false
    else if trader_daily ≥ resolved.max_daily_spend then
      CopyDecision.reject RejectReason.traderDailyLimit false
    else CopyDecision.accept

/-- Model of `CopyTrader.calculate_copy_size`, with the two daily-spend reads passed
in as the values the database queries would return. -/
def calculate_copy_size (s : Settings) (resolved : ResolvedSettings)
    (t : UpstreamTrade) (daily_spend trader_daily : ℚ) : ℚ :=
  let original_usd := if t.price > 0 then t.size * t.price else t.size
  if original_usd ≤ 0 then resolved.min_copy_size
  else
    let c1 := original_usd * resolved.copy_percentage
    let c2 := max c1 resolved.min_copy_size
    let c3 := min c2 resolved.max_copy_size
    let global_remaining := s.max_daily_spend - daily_spend
    let c4 := if c3 > global_remaining then global_remaining else c3
    let trader_remaining := resolved.max_daily_spend - trader_daily
    let c5 := if c4 > trader_remaining then trader_remaining else c4
    round2 c5

/-- Model of `CopyTrader._calculate_limit_price`. -/
def calculate_limit_price (s : Settings) (trader_price : ℚ) (side : String)
    (slippage_pct : Option ℚ) : Option ℚ :=
  if trader_price ≤ 0 then none
  else
    let slippage :=
      match slippage_pct with
      | some sp => sp / 100
      | none => s.max_slippage
    if side = "BUY" then some (min (round4 (trader_price * (1 + slippage))) (99/100))
    else some (max (round4 (trader_price * (1 - slippage))) (1/100))

/-- Model of `FundManager.calculate_fund_copy_size`. -/
def calculate_fund_copy_size (s : Settings) (aum trader_weight original_usd : ℚ) : ℚ :=
  if aum ≤ 0 then 0
  else
    let c1 := original_usd * s.copy_percentage * trader_weight
    let max_per_trade := aum * (5/100)
    let c2 := min c1 max_per_trade
    let c3 := max c2 s.min_copy_size
    let c4 := min c3 s.max_copy_size
    round2 c4

/-- A row of the `trades` table (the columns the claims read).
`day` models `date(timestamp)` of the row's insertion time. -/
structure TradeRow where
  strategy : String
  token_id : String
  side : String
  amount : ℚ
  price : ℚ
  expected_profit : ℚ
  copied_from : String
  original_trade_id : String
  status : String
  notes : Option String
  user_address : String
  day : ℤ
deriving DecidableEq, Repr

/-- A row of the `positions` table (the columns the claims read). -/
structure PositionRow where
  id : ℕ
  user_address : String
  token_id : String
  side : String
  size : ℚ
  avg_entry_price : ℚ
  cost_basis : ℚ
  status : String
deriving DecidableEq, Repr

/-- A `followed_traders` counters row, for `update_trader_stats`. -/
structure TraderStat where
  address : String
  user_address : String
  total_copied : ℕ
  total_spent : ℚ
deriving DecidableEq, Repr

/-- The database state the copy/fund pipeline mutates. -/
structure DBState where
  seen : List String
  trades : List TradeRow
  positions : List PositionRow
  stats : List TraderStat
deriving DecidableEq, Repr

/-- Model of `db.mark_trade_seen`: `INSERT OR IGNORE` into `seen_trade_ids`.
Keyed solely by the fingerprint string; there is no user column. -/
def mark_trade_seen (seen : List String) (tid : String) : List String :=
  if tid ∈ seen then seen else tid :: seen

/-- The engine passes `user_address=self.user_address`; the db helpers
apply the user filter only when the value is truthy (non-empty). -/
def user_filter (user : String) : Option String :=
  if user = "" then none else some user

/-- The WHERE clause of `db.get_daily_spend`. -/
def daily_filter (strategy : String) (today : ℤ) (user : Option String)
    (t : TradeRow) : Bool :=
  t.strategy == strategy && t.status == "executed" && t.day == today &&
    (match user with
     | some u => t.user_address == u
     | none => true)

/-- Model of `db.get_daily_spend`: `SUM(amount)` over today's executed rows. -/
def get_daily_spend (trades : List TradeRow) (strategy : String) (today : ℤ)
    (user : Option String) : ℚ :=
  ((trades.filter (daily_filter strategy today user)).map (fun t => t.amount)).sum

/-- The WHERE clause of `db.get_trader_daily_spend`. -/
def trader_daily_filter (trader : String) (today : ℤ) (user : Option String)
    (t : TradeRow) : Bool :=
  t.strategy == "copy" && t.status == "executed" && t.day == today &&
    t.copied_from == trader &&
    (match user with
     | some u => t.user_address == u
     | none => true)

/-- Model of `db.get_trader_daily_spend`. -/
def get_trader_daily_spend (trades : List TradeRow) (trader : String) (today : ℤ)
    (user : Option String) : ℚ :=
  ((trades.filter (trader_daily_filter trader today user)).map (fun t => t.amount)).sum

/-- Model of `db.update_trader_stats`: increment the counters of the matching rows. -/
def update_trader_stats (stats : List TraderStat) (address : String)
    (amount_spent : ℚ) (user : Option String) : List TraderStat :=
  stats.map fun st =>
    if st.address == address &&
        (match user with
         | some u => st.user_address == u
         | none => true) then
      { st with total_copied := st.total_copied + 1,
                total_spent := st.total_spent + amount_spent }
    else st

/-- Match of the open-position lookup in `db.upsert_position`. -/
def pos_matches (user token ps : String) (p : PositionRow) : Bool :=
  p.user_address == user && p.token_id == token && p.side == ps && p.status == "open"

/-- A fresh id strictly larger than every id in the list (AUTOINCREMENT). -/
def fresh_pos_id (l : List PositionRow) : ℕ :=
  l.foldr (fun q m => max (q.id + 1) m) 0

/-- Model of `db.upsert_position` (the `side` argument is taken post-`.upper()`).
The table's UNIQUE constraint is not modelled; no claim exercises a
re-insert after close. -/
def upsert_position (positions : List PositionRow) (user token side : String)
    (trade_amount trade_price : ℚ) : List PositionRow :=
  let ps := if side = "BUY" then "LONG" else "SHORT"
  match positions.find? (pos_matches user token ps) with
  | some ex =>
      let old_cost := ex.cost_basis
      let old_size := ex.size
      let upd : ℚ × ℚ × ℚ :=
        if side = "BUY" ∧ ps = "LONG" then
          let new_cost := old_cost + trade_amount
          let new_size := old_size + (if trade_price > 0 then trade_amount / trade_price else trade_amount)
          (new_size, new_cost, if new_size > 0 then new_cost / new_size else 0)
        else if side = "SELL" ∧ ps = "LONG" then
          let reduce_size := if trade_price > 0 then trade_amount / trade_price else trade_amount
          let new_size := max 0 (old_size - reduce_size)
          (new_size, if old_size > 0 then old_cost * (new_size / old_size) else 0,
           ex.avg_entry_price)
        else
          let new_cost := old_cost + trade_amount
          let new_size := old_size + (if trade_price > 0 then trade_amount / trade_price else trade_amount)
          (new_size, new_cost, if new_size > 0 then new_cost / new_size else 0)
      if upd.1 ≤ 1/1000 then
        positions.map fun q =>
          if q.id == ex.id then { q with size := 0, cost_basis := 0, status := "closed" }
          else q
      else
        positions.map fun q =>
          if q.id == ex.id then
            { q with size := upd.1, cost_basis := upd.2.1, avg_entry_price := upd.2.2 }
          else q
  | none =>
      let size := if trade_price > 0 then trade_amount / trade_price else trade_amount
      positions ++ [{ id := fresh_pos_id positions, user_address := user,
                      token_id := token, side := ps, size := size,
                      avg_entry_price := trade_price, cost_basis := trade_amount,
                      status := "open" }]

/-- Observable side effects of one engine step, in program order. -/
inductive Action where
  | markSeen (fp : String)
  | placeMarketOrder (token : String) (amount : ℚ) (side : String)
  | placeLimitOrder (token : String) (price : ℚ) (shares : ℚ) (side : String)
  | recordTrade (status : String)
  | updateStats (address : String)
  | upsertPos (token : String)
  | recordFundTrade (fund_id : ℕ)
deriving DecidableEq, Repr

/-- Outcome of a gateway order call as `execute_copy` discriminates it:
a truthy non-error result, an error dict, an empty/falsy result, or an
exception raised by the call. -/
inductive OrderResult where
  | success
  | errorResult (msg : String)
  | emptyResult
  | exn (msg : String)
deriving DecidableEq, Repr

/-- The `status` the order-submission block of `execute_copy` assigns. -/
def order_status : OrderResult → String
  | OrderResult.success => "executed"
  | _ => "failed"

/-- The `fail_reason` the order-submission block of `execute_copy` assigns. -/
def order_fail_reason : OrderResult → String
  | OrderResult.success => ""
  | OrderResult.errorResult m => m
  | OrderResult.emptyResult => "Order returned empty result"
  | OrderResult.exn m => m

/-- The fingerprint `FundManager` builds (`id or trade_id or
asset_id_timestamp`; unlike the copy engine it has no transaction-hash
fallback). -/
def fund_trade_id (t : UpstreamTrade) : String :=
  match orStr t.id t.trade_id with
  | some s => s
  | none => t.asset_id.getD "" ++ "_" ++ ts_str t.timestamp

/-- Result of one execution step: new database state, the step's side
effects in program order, and the boolean the Python function returns. -/
structure ExecResult where
  db : DBState
  trace : List Action
  ok : Bool
deriving DecidableEq, Repr

/-- Model of `CopyTrader.execute_copy` for one candidate trade.  `orderOutcome` is
the environment's answer to the single gateway call (unused in dry-run). -/
def execute_copy (s : Settings) (tr : FollowedTrader) (t : UpstreamTrade)
    (user : String) (today : ℤ) (dry_run : Bool) (orderOutcome : OrderResult)
    (db : DBState) : ExecResult :=
  let tid := get_trade_id t
  let token := (usable_token t).getD ""
  let resolved := resolve_settings s tr
  let uf := user_filter user
  let daily := get_daily_spend db.trades "copy" today uf
  let trader_daily := get_trader_daily_spend db.trades tr.address today uf
  let copy_size := calculate_copy_size s resolved t daily trader_daily
  if copy_size ≤ 0 then
    { db := { db with seen := mark_trade_seen db.seen tid },
      trace := [Action.markSeen tid], ok := false }
  else
    let seen1 := mark_trade_seen db.seen tid
    let use_limit0 := resolved.order_mode = "limit"
    let limit_price := calculate_limit_price s t.price t.side (some resolved.limit_order_pct)
    let lp := limit_price.getD 0
    let use_limit := use_limit0 ∧ 0 < lp
    let num_shares := if use_limit then round2 (copy_size / lp) else 0
    let orderActs : List Action :=
      if dry_run then []
      else if use_limit then [Action.placeLimitOrder token lp num_shares t.side]
      else [Action.placeMarketOrder token copy_size t.side]
    let status := if dry_run then "dry_run" else order_status orderOutcome
    let fail_reason := if dry_run then "" else order_fail_reason orderOutcome
    let row : TradeRow :=
      { strategy := "copy", token_id := token, side := t.side, amount := copy_size,
        price := t.price, expected_profit := 0, copied_from := tr.address,
        original_trade_id := tid, status := status,
        notes := if fail_reason = "" then none else some fail_reason,
        user_address := user, day := today }
    let stats1 :=
      if status = "executed" then update_trader_stats db.stats tr.address copy_size uf
      else db.stats
    let positions1 :=
      if status = "executed" ∧ t.price > 0 then
        upsert_position db.positions (if user = "" then "legacy" else user) token t.side
          copy_size t.price
      else db.positions
    let successActs : List Action :=
      if status = "executed" then
        Action.updateStats tr.address :: (if t.price > 0 then [Action.upsertPos token] else [])
      else []
    { db := { seen := seen1, trades := db.trades ++ [row],
              positions := positions1, stats := stats1 },
      trace := Action.markSeen tid :: orderActs ++ Action.recordTrade status :: successActs,
      ok := status ≠ "failed" }

/-- One candidate processed inside `CopyTrader.poll_trader`: run
`should_copy`, then `execute_copy` when it accepts. -/
def poll_step (s : Settings) (tr : FollowedTrader) (t : UpstreamTrade)
    (user : String) (today : ℤ) (now : ℚ) (dry_run : Bool)
    (orderOutcome : OrderResult) (db : DBState) : DBState × List Action :=
  let uf := user_filter user
  let daily := get_daily_spend db.trades "copy" today uf
  let trader_daily := get_trader_daily_spend db.trades tr.address today uf
  match should_copy db.seen s tr t now daily trader_daily with
  | CopyDecision.reject _ marked =>
      if marked then
        ({ db with seen := mark_trade_seen db.seen (get_trade_id t) },
         [Action.markSeen (get_trade_id t)])
      else (db, [])
  | CopyDecision.accept =>
      let r := execute_copy s tr t user today dry_run orderOutcome db
      (r.db, r.trace)

/-- Model of `FundManager.execute_fund_trade`.  The gateway result is only tested
for truthiness (`status = "executed" if result else "failed"`). -/
def execute_fund_trade (s : Settings) (fund_id : ℕ) (fund_aum : ℚ)
    (t : UpstreamTrade) (trader_address : String) (weight : ℚ)
    (dry_run : Bool) (orderOk : Bool) (today : ℤ) (db : DBState) : ExecResult :=
  let token := (orStr t.asset_id t.token_id).getD ""
  let original_usd := if t.price > 0 then t.size * t.price else t.size
  let copy_size := calculate_fund_copy_size s fund_aum weight original_usd
  if copy_size ≤ 0 then { db := db, trace := [], ok := false }
  else
    let status := if dry_run then "dry_run" else if orderOk then "executed" else "failed"
    let orderActs : List Action :=
      if dry_run then [] else [Action.placeMarketOrder token copy_size t.side]
    let row : TradeRow :=
      { strategy := "fund", token_id := token, side := t.side, amount := copy_size,
        price := 0, expected_profit := 0, copied_from := trader_address,
        original_trade_id := "fund_" ++ toString fund_id ++ "_" ++ fund_trade_id t,
        status := status, notes := none, user_address := "", day := today }
    { db := { db with trades := db.trades ++ [row] },
      trace := orderActs ++ [Action.recordTrade status, Action.recordFundTrade fund_id],
      ok := status ≠ "failed" }

/-- One candidate processed inside `FundManager.poll_fund_traders`:
dedup check, staleness, token/side check, then execution followed by
`mark_trade_seen` on the fund-scoped fingerprint. -/
def fund_poll_step (s : Settings) (fund_id : ℕ) (fund_aum : ℚ)
    (t : UpstreamTrade) (trader_address : String) (weight : ℚ)
    (dry_run : Bool) (orderOk : Bool) (now : ℚ) (today : ℤ)
    (db : DBState) : DBState × List Action :=
  let tid := fund_trade_id t
  let dedup_id := "fund_" ++ toString fund_id ++ "_" ++ tid
  if dedup_id ∈ db.seen then (db, [])
  else
    if trade_is_stale s t now then
      ({ db with seen := mark_trade_seen db.seen dedup_id }, [Action.markSeen dedup_id])
    else if ((orStr t.asset_id t.token_id).getD "" = "") ∨ ¬ side_ok t.side then
      ({ db with seen := mark_trade_seen db.seen dedup_id }, [Action.markSeen dedup_id])
    else
      let r := execute_fund_trade s fund_id fund_aum t trader_address weight dry_run orderOk today db
      ({ r.db with seen := mark_trade_seen r.db.seen dedup_id },
       r.trace ++ [Action.markSeen dedup_id])

/-- An arbitrage opportunity dict as built by `check_opportunity`. -/
structure Opportunity where
  yes_token : String
  no_token : String
  yes_price : ℚ
  no_price : ℚ
  combined_cost : ℚ
  profit : ℚ
  profit_pct : ℚ
deriving DecidableEq, Repr

/-- Model of `ArbitrageScanner.check_opportunity`, with the two gateway price reads
passed in (`none` models an unavailable price). -/
def check_opportunity (s : Settings) (yes_token no_token : String)
    (yes_price no_price : Option ℚ) : Option Opportunity :=
  match yes_price, no_price with
  | some y, some n =>
      let c := y + n
      if c ≥ 1 ∨ c ≤ 0 then none
      else
        let profit := 1 - c
        let profit_pct := profit / c * 100
        if profit_pct < s.min_profit_pct then none
        else some ⟨yes_token, no_token, y, n, c, profit, profit_pct⟩
  | _, _ => none

/-- Truthiness test `_leg_ok` of `execute_arbitrage` (an exception raised
by the gateway call is not caught there, so `exn` is out of this model's
scope and conservatively mapped to a failed leg). -/
def leg_ok : OrderResult → Bool
  | OrderResult.success => true
  | _ => false

/-- Model of `ArbitrageScanner.execute_arbitrage` (non-dry-run path): submit both
legs as market orders, then record one row per leg. -/
def execute_arbitrage (s : Settings) (opp : Opportunity)
    (user : String) (today : ℤ) (yesResult noResult : OrderResult)
    (db : DBState) : ExecResult :=
  let amount := min s.trade_amount s.max_position_size
  let expected_profit := opp.profit * amount
  let yes_amount := amount * (opp.yes_price / opp.combined_cost)
  let no_amount := amount * (opp.no_price / opp.combined_cost)
  let yes_ok := leg_ok yesResult
  let no_ok := leg_ok noResult
  let mkRow (token : String) (side_amount : ℚ) (label : String) (ok : Bool)
      (result : OrderResult) : TradeRow :=
    { strategy := "arbitrage", token_id := token, side := "BUY",
      amount := side_amount,
      price := if label = "YES" then opp.yes_price else opp.no_price,
      expected_profit := expected_profit / 2, copied_from := "",
      original_trade_id := "", status := if ok then "executed" else "failed",
      notes := if ok then some "" else
        (match result with
         | OrderResult.errorResult m => some m
         | _ => some "Order execution failed"),
      user_address := user, day := today }
  { db := { db with trades := db.trades ++
      [mkRow opp.yes_token yes_amount "YES" yes_ok yesResult,
       mkRow opp.no_token no_amount "NO" no_ok noResult] },
    trace := [Action.placeMarketOrder opp.yes_token yes_amount "BUY",
              Action.placeMarketOrder opp.no_token no_amount "BUY",
              Action.recordTrade (if yes_ok then "executed" else "failed"),
              Action.recordTrade (if no_ok then "executed" else "failed")],
    ok := yes_ok && no_ok }

/-- A `funds` row (the columns the claims read). -/
structure Fund where
  id : ℕ
  owner_address : String
  active : Bool
  total_aum : ℚ
  nav_per_share : ℚ
  total_shares : ℚ
deriving DecidableEq, Repr

/-- A `fund_investments` row. -/
structure FundInvestment where
  id : ℕ
  fund_id : ℕ
  investor_address : String
  amount_invested : ℚ
  shares : ℚ
  status : String
deriving DecidableEq, Repr

/-- The fund-related database state. -/
structure FundDB where
  funds : List Fund
  investments : List FundInvestment
deriving DecidableEq, Repr

/-- A fresh investment id strictly larger than every existing one. -/
def fresh_inv_id (l : List FundInvestment) : ℕ :=
  l.foldr (fun q m => max (q.id + 1) m) 0

/-- Model of `db.invest_in_fund`: `none` models the raised `ValueError` when the
fund is missing or inactive. -/
def invest_in_fund (db : FundDB) (fund_id : ℕ) (investor : String)
    (amount : ℚ) : Option (FundDB × FundInvestment) :=
  match db.funds.find? (fun f => f.id == fund_id && f.active) with
  | none => none
  | some fund =>
      let nav := fund.nav_per_share
      let shares := amount / nav
      let inv : FundInvestment :=
        { id := fresh_inv_id db.investments, fund_id := fund_id,
          investor_address := investor, amount_invested := amount,
          shares := shares, status := "active" }
      let funds1 := db.funds.map fun f =>
        if f.id == fund_id then
          { f with total_aum := f.total_aum + amount,
                   total_shares := f.total_shares + shares }
        else f
      some ({ funds := funds1, investments := db.investments ++ [inv] }, inv)

/-- Model of `db.withdraw_from_fund`: `none` models the raised `ValueError` (or the
crash on a dangling fund reference). -/
def withdraw_from_fund (db : FundDB) (investment_id : ℕ) (investor : String) :
    Option (FundDB × ℚ) :=
  match db.investments.find? (fun q =>
      q.id == investment_id && q.investor_address == investor && q.status == "active") with
  | none => none
  | some inv =>
      match db.funds.find? (fun f => f.id == inv.fund_id) with
      | none => none
      | some fund =>
          let withdrawal_amount := inv.shares * fund.nav_per_share
          let investments1 := db.investments.map fun q =>
            if q.id == investment_id then { q with status := "withdrawn" } else q
          let funds1 := db.funds.map fun f =>
            if f.id == inv.fund_id then
              { f with total_aum := f.total_aum - withdrawal_amount,
                       total_shares := f.total_shares - inv.shares }
            else f
          some ({ funds := funds1, investments := investments1 }, withdrawal_amount)

/-- Model of `clamp` as the spec uses it: `min (max x lo) hi`. -/
def clamp (x lo hi : ℚ) : ℚ := min (max x lo) hi

/-- Joint admission-and-sizing outcome, for comparing the code's pipeline
with the reference algorithm of spec §4.3. -/
inductive AdmitResult where
  | reject (reason : RejectReason) (marked : Bool)
  | accept (amount : ℚ)
deriving DecidableEq, Repr

/-- The code's admission-and-sizing decision for one candidate:
`should_copy` followed (on acceptance) by `calculate_copy_size`. -/
def code_sizing_decision (seen : List String) (s : Settings) (tr : FollowedTrader)
    (t : UpstreamTrade) (now daily_spend trader_daily : ℚ) : AdmitResult :=
  match should_copy seen s tr t now daily_spend trader_daily with
  | CopyDecision.reject r m => AdmitResult.reject r m
  | CopyDecision.accept =>
      AdmitResult.accept (calculate_copy_size s (resolve_settings s tr) t daily_spend trader_daily)

/-- Modelled from the spec: the reference admission-and-sizing algorithm of
§4.3 steps 1–6 plus the accepted-amount formula, exactly as the claim lists
it — rejections tested in order `already_seen`, `too_old`, `no_token`,
`invalid_side`, `global_daily_limit`, `trader_daily_limit` (marking the
fingerprint seen for the middle three), budget checks with `≥`, and
`amount = round2 (min (clamp (originalUsd × copyPct) minCopy maxCopy)
(min globalRemaining traderRemaining))`. -/
def spec_sizing_decision (seen : List String) (s : Settings) (tr : FollowedTrader)
    (t : UpstreamTrade) (now daily_spend trader_daily : ℚ) : AdmitResult :=
  let tid := get_trade_id t
  let effective := resolve_settings s tr
  if tid ∈ seen then AdmitResult.reject RejectReason.alreadySeen false
  else
    if trade_is_stale s t now then AdmitResult.reject RejectReason.tooOld true
    else if (usable_token t).isNone then AdmitResult.reject RejectReason.noToken true
    else if ¬ side_ok t.side then AdmitResult.reject RejectReason.invalidSide true
    else if daily_spend ≥ s.max_daily_spend then
      AdmitResult.reject RejectReason.globalDailyLimit false
    else if trader_daily ≥ effective.max_daily_spend then
      AdmitResult.reject RejectReason.traderDailyLimit false
    else
      let original_usd := if t.price > 0 then t.size * t.price else t.size
      let copy_usd := clamp (original_usd * effective.copy_percentage)
        effective.min_copy_size effective.max_copy_size
      let global_remaining := s.max_daily_spend - daily_spend
      let trader_remaining := effective.max_daily_spend - trader_daily
      AdmitResult.accept (round2 (min copy_usd (min global_remaining trader_remaining)))

/-! ## Concrete fixtures used by witnesses and counterexamples -/

/-- A fresh, well-formed upstream BUY of 1000 shares at 0.42 on `tokT`
(no timestamp, so it is never stale). -/
def sampleTrade : UpstreamTrade where
  id := some "T1"
  trade_id := none
  transaction_hash := none
  asset_id := some "tokT"
  token_id := none
  asset := none
  side := "BUY"
  size := 1000
  price := 42/100
  timestamp := none

/-- A followed trader with no per-trader overrides. -/
def defaultTrader : FollowedTrader where
  address := "0xtrader"
  copy_percentage := none
  min_copy_size := none
  max_copy_size := none
  max_daily_spend := none
  limit_order_pct := none
  order_mode := none

/-- An empty database. -/
def emptyDB : DBState where
  seen := []
  trades := []
  positions := []
  stats := []

/-! ## C1: fingerprint marking versus order submission -/

/-- Gateway order-placement actions. -/
def is_order : Action → Bool
  | Action.placeMarketOrder _ _ _ => true
  | Action.placeLimitOrder _ _ _ _ => true
  | _ => false

/-- In trace `tr`, every order placement is strictly preceded by a
`markSeen fp` action. -/
def marks_before_orders (fp : String) (tr : List Action) : Prop :=
  ∀ pre a suf, tr = pre ++ a :: suf → is_order a = true → Action.markSeen fp ∈ pre

lemma marks_before_orders_of_cons_mark (fp : String) (rest : List Action) :
    marks_before_orders fp (Action.markSeen fp :: rest) := by
  intro pre a suf hEq ho
  cases pre with
  | nil =>
      simp only [List.nil_append, List.cons.injEq] at hEq
      rw [← hEq.1] at ho
      simp [is_order] at ho
  | cons b pre2 =>
      rw [List.cons_append, List.cons.injEq] at hEq
      obtain ⟨h1, -⟩ := hEq
      rw [← h1]
      exact List.mem_cons_self _ _

lemma marks_before_orders_of_no_orders (fp : String) (tr : List Action)
    (h : ∀ a ∈ tr, is_order a = false) : marks_before_orders fp tr := by
  intro pre a suf hEq ho
  have ha : a ∈ tr := by
    rw [hEq]
    exact List.mem_append_right _ (List.mem_cons_self _ _)
  rw [h a ha] at ho
  cases ho

lemma execute_copy_trace_shape (s : Settings) (tr : FollowedTrader)
    (t : UpstreamTrade) (user : String) (today : ℤ) (dry : Bool)
    (o : OrderResult) (db : DBState) :
    ∃ rest, (execute_copy s tr t user today dry o db).trace
      = Action.markSeen (get_trade_id t) :: rest := by
  unfold execute_copy
  dsimp only
  split
  · exact ⟨[], rfl⟩
  · exact ⟨_, rfl⟩

/-- C1 counterexample: for a fresh, well-formed candidate, the fund worker
places the market order *before* the fund-scoped fingerprint is marked
seen, so the claimed ordering fails for the fund worker. -/
theorem fund_worker_order_before_mark_cex :
    ¬ marks_before_orders ("fund_" ++ toString 1 ++ "_" ++ fund_trade_id sampleTrade)
      (fund_poll_step defaultSettings 1 1000 sampleTrade "0xtrader" 1 false true 0 0 emptyDB).2 := by
  intro h
  have htr : (fund_poll_step defaultSettings 1 1000 sampleTrade "0xtrader" 1 false true 0 0 emptyDB).2
      = [] ++ Action.placeMarketOrder "tokT" 42 "BUY" ::
        [Action.recordTrade "executed", Action.recordFundTrade 1, Action.markSeen "fund_1_T1"] := by
    norm_num [fund_poll_step, execute_fund_trade, calculate_fund_copy_size, defaultSettings,
      sampleTrade, emptyDB, fund_trade_id, orStr, trade_is_stale, side_ok, round2,
      roundHalfEven, mark_trade_seen, Int.floor_eq_iff]
    simp +decide
  have := h _ _ _ htr (by rfl)
  simp at this

/-- C1 (amended): in the per-user copy worker every order placement in a
step's trace is strictly preceded by marking the trade's fingerprint seen;
the fund worker, however, marks the fund-scoped fingerprint of an accepted
candidate only *after* `execute_fund_trade` has run, i.e. its trace is the
execution trace (which contains any order placement) followed by the
`markSeen` action. -/
theorem mark_seen_order_discipline :
    (∀ (s : Settings) (tr : FollowedTrader) (t : UpstreamTrade) (user : String)
      (today : ℤ) (now : ℚ) (dry : Bool) (o : OrderResult) (db : DBState),
      marks_before_orders (get_trade_id t) (poll_step s tr t user today now dry o db).2)
    ∧ (∀ (s : Settings) (fund_id : ℕ) (fund_aum : ℚ) (t : UpstreamTrade)
      (trader : String) (w : ℚ) (dry ok : Bool) (now : ℚ) (today : ℤ) (db : DBState),
      ("fund_" ++ toString fund_id ++ "_" ++ fund_trade_id t) ∉ db.seen →
      trade_is_stale s t now = false →
      ¬(((orStr t.asset_id t.token_id).getD "" = "") ∨ ¬ side_ok t.side) →
      (fund_poll_step s fund_id fund_aum t trader w dry ok now today db).2
        = (execute_fund_trade s fund_id fund_aum t trader w dry ok today db).trace
          ++ [Action.markSeen ("fund_" ++ toString fund_id ++ "_" ++ fund_trade_id t)]) := by
  constructor
  · intro s tr t user today now dry o db
    unfold poll_step
    dsimp only
    split
    · split
      · exact marks_before_orders_of_cons_mark _ _
      · exact marks_before_orders_of_no_orders _ _ (by intro a ha; cases ha)
    · obtain ⟨rest, hres⟩ := execute_copy_trace_shape s tr t user today dry o db
      rw [hres]
      exact marks_before_orders_of_cons_mark _ _
  · intro s fund_id fund_aum t trader w dry ok now today db h1 h2 h3
    unfold fund_poll_step
    dsimp only
    rw [if_neg h1, h2]
    simp only [Bool.false_eq_true, if_false, if_neg h3]

/-- C1 witness: at a concrete fresh candidate both parts of the theorem
apply. -/
theorem mark_seen_order_discipline_witness :
    marks_before_orders (get_trade_id sampleTrade)
      (poll_step defaultSettings defaultTrader sampleTrade "0xuser" 0 0 false
        OrderResult.success emptyDB).2
    ∧ (fund_poll_step defaultSettings 1 1000 sampleTrade "0xtrader" 1 false true 0 0 emptyDB).2
      = (execute_fund_trade defaultSettings 1 1000 sampleTrade "0xtrader" 1 false true 0 emptyDB).trace
        ++ [Action.markSeen ("fund_" ++ toString 1 ++ "_" ++ fund_trade_id sampleTrade)] :=
  ⟨mark_seen_order_discipline.1 defaultSettings defaultTrader sampleTrade "0xuser" 0 0 false
      OrderResult.success emptyDB,
   mark_seen_order_discipline.2 defaultSettings 1 1000 sampleTrade "0xtrader" 1 false true 0 0 emptyDB
      (by simp [emptyDB]) (by simp [trade_is_stale, sampleTrade])
      (by simp +decide [sampleTrade, orStr, side_ok])⟩

/-! ## C2: position upsert on net-zero trade sequences -/

/-- An open LONG of 84 shares at avg 0.42⁻¹·… (entry 0.5, cost 42),
exactly what a BUY of 42 USD at 0.5 creates. -/
def longPos : PositionRow where
  id := 7
  user_address := "u"
  token_id := "tk"
  side := "LONG"
  size := 84
  avg_entry_price := 1/2
  cost_basis := 42
  status := "open"

/-- C2 failing-input evaluation: `upsert_position` computes
`pos_side = SHORT` for every SELL and looks up only SHORT positions, so
the SELL→LONG reducing branch is unreachable.  Applying a SELL of 42 USD
at 0.5 against an open LONG of 84 shares leaves the LONG untouched and
opens a fresh SHORT of 84 shares, instead of closing the position as the
claim (and the code's own dead `SELL and pos_side == "LONG"` branch)
prescribes. -/
theorem sell_does_not_reduce_long :
    upsert_position [longPos] "u" "tk" "SELL" 42 (1/2)
      = [longPos,
         { id := 8, user_address := "u", token_id := "tk", side := "SHORT",
           size := 84, avg_entry_price := 1/2, cost_basis := 42, status := "open" }] := by
  norm_num [upsert_position, longPos, pos_matches, fresh_pos_id]
  simp +decide

/-! ## C3: admission-and-sizing versus the spec §4.3 reference algorithm -/

/-- Model of `sampleTrade` with a parseable timestamp at epoch 0. -/
def sampleTradeTs : UpstreamTrade := { sampleTrade with timestamp := some 0 }

/-- Model of `sampleTrade` with size 0 (an upstream record with no usable size). -/
def zeroSizeTrade : UpstreamTrade := { sampleTrade with size := 0 }

/-- C3 counterexample: on a candidate with `originalUsd = 0` and only 1 USD
of global daily budget left, the code accepts with amount `minCopy = 5`
(uncapped, unrounded) while the spec §4.3 algorithm accepts with amount 1
(clamped, then capped by the remaining budget). -/
theorem sizing_spec_deviation_cex :
    code_sizing_decision [] defaultSettings defaultTrader zeroSizeTrade 0 499 0
      = AdmitResult.accept 5
    ∧ spec_sizing_decision [] defaultSettings defaultTrader zeroSizeTrade 0 499 0
      = AdmitResult.accept 1 := by
  constructor
  · norm_num [code_sizing_decision, should_copy, calculate_copy_size, resolve_settings,
      defaultSettings, defaultTrader, zeroSizeTrade, sampleTrade, usable_token, orStr,
      trade_is_stale, side_ok, get_trade_id, round2, roundHalfEven, Int.floor_eq_iff]
    simp +decide
  · norm_num [spec_sizing_decision, resolve_settings, clamp,
      defaultSettings, defaultTrader, zeroSizeTrade, sampleTrade, usable_token, orStr,
      trade_is_stale, side_ok, get_trade_id, round2, roundHalfEven, Int.floor_eq_iff]
    simp +decide

lemma if_gt_eq_min (a b : ℚ) : (if a > b then b else a) = min a b := by
  split
  · exact (min_eq_right (le_of_lt (by assumption))).symm
  · exact (min_eq_left (le_of_not_lt (by assumption))).symm

lemma spec_decision_via_should_copy (seen : List String) (s : Settings)
    (tr : FollowedTrader) (t : UpstreamTrade) (now daily trader_daily : ℚ) :
    spec_sizing_decision seen s tr t now daily trader_daily =
      match should_copy seen s tr t now daily trader_daily with
      | CopyDecision.reject r m => AdmitResult.reject r m
      | CopyDecision.accept =>
          AdmitResult.accept (round2 (min
            (clamp ((if t.price > 0 then t.size * t.price else t.size) *
              (resolve_settings s tr).copy_percentage)
              (resolve_settings s tr).min_copy_size (resolve_settings s tr).max_copy_size)
            (min (s.max_daily_spend - daily)
              ((resolve_settings s tr).max_daily_spend - trader_daily)))) := by
  unfold spec_sizing_decision should_copy
  dsimp only
  split_ifs <;> rfl

/-- C3 (amended): for every candidate whose estimated original size
`originalUsd = size × price` (or `size` when `price ≤ 0`) is positive, the
code's admission-and-sizing decision equals the spec §4.3 reference
algorithm — same rejection order, same seen-marking, `≥` budget checks,
and accepted amount `round2 (min (clamp (originalUsd×copyPct) minCopy
maxCopy) (min globalRemaining traderRemaining))`; when `originalUsd ≤ 0`
the code instead returns `minCopy` directly, neither budget-capped nor
rounded.  Moreover the scenario size=1000, price=0.42, copyPct=0.10
yields amount 42, and the staleness boundary is exact: age exactly
`maxTradeAge` is accepted, `maxTradeAge + 1` is rejected as too old. -/
theorem admission_sizing_matches_spec :
    (∀ (seen : List String) (s : Settings) (tr : FollowedTrader) (t : UpstreamTrade)
      (now daily trader_daily : ℚ),
      0 < (if t.price > 0 then t.size * t.price else t.size) →
      code_sizing_decision seen s tr t now daily trader_daily
        = spec_sizing_decision seen s tr t now daily trader_daily)
    ∧ code_sizing_decision [] defaultSettings defaultTrader sampleTradeTs 300 0 0
        = AdmitResult.accept 42
    ∧ code_sizing_decision [] defaultSettings defaultTrader sampleTradeTs 301 0 0
        = AdmitResult.reject RejectReason.tooOld true := by
  refine ⟨?_, ?_, ?_⟩
  · intro seen s tr t now daily trader_daily h
    rw [spec_decision_via_should_copy]
    unfold code_sizing_decision
    cases hsc : should_copy seen s tr t now daily trader_daily with
    | reject r m => rfl
    | accept =>
        dsimp only
        congr 1
        unfold calculate_copy_size clamp
        dsimp only
        rw [if_neg (not_le.mpr h), if_gt_eq_min, if_gt_eq_min, min_assoc]
  · norm_num [code_sizing_decision, should_copy, calculate_copy_size, resolve_settings,
      defaultSettings, defaultTrader, sampleTradeTs, sampleTrade, usable_token, orStr,
      trade_is_stale, side_ok, get_trade_id, round2, roundHalfEven, Int.floor_eq_iff]
    simp +decide
  · norm_num [code_sizing_decision, should_copy, resolve_settings,
      defaultSettings, defaultTrader, sampleTradeTs, sampleTrade, usable_token, orStr,
      trade_is_stale, side_ok, get_trade_id]

/-- C3 witness: the equivalence applied at a concrete positive-size
candidate. -/
theorem admission_sizing_matches_spec_witness :
    code_sizing_decision [] defaultSettings defaultTrader sampleTrade 0 0 0
      = spec_sizing_decision [] defaultSettings defaultTrader sampleTrade 0 0 0 :=
  admission_sizing_matches_spec.1 [] defaultSettings defaultTrader sampleTrade 0 0 0
    (by norm_num [sampleTrade])

/-! ## C4: the daily executed spend never exceeds the cap by more than one
maximal single order -/

/-- One candidate observed by the polling loop, together with the
environment's answer to the (potential) gateway call. -/
structure PollInput where
  trader : FollowedTrader
  trade : UpstreamTrade
  now : ℚ
  outcome : OrderResult
deriving DecidableEq, Repr

/-- A sequence of worker steps: each candidate is run through
`should_copy` and, on acceptance, `execute_copy` (`CopyTrader.poll_trader`
iterated over trades and traders). -/
def poll_run (s : Settings) (user : String) (today : ℤ) (dry : Bool)
    (db : DBState) : List PollInput → DBState
  | [] => db
  | inp :: rest =>
      poll_run s user today dry
        (poll_step s inp.trader inp.trade user today inp.now dry inp.outcome db).1 rest

lemma roundHalfEven_mono {q r : ℚ} (h : q ≤ r) :
    roundHalfEven q ≤ roundHalfEven r := by
  unfold roundHalfEven
  dsimp only
  have hf : ⌊q⌋ ≤ ⌊r⌋ := Int.floor_le_floor h
  have hq1 : q - ⌊q⌋ < 1 := by
    have := Int.lt_floor_add_one q
    linarith
  have hr0 : 0 ≤ r - ⌊r⌋ := by
    have := Int.floor_le r
    linarith
  rcases lt_or_eq_of_le hf with hlt | heq
  · have hL : (if q - ⌊q⌋ < 1/2 then (⌊q⌋:ℤ)
        else if q - ⌊q⌋ > 1/2 then ⌊q⌋ + 1
        else if ⌊q⌋ % 2 = 0 then ⌊q⌋ else ⌊q⌋ + 1) ≤ ⌊q⌋ + 1 := by
      split_ifs <;> omega
    have hR : (⌊r⌋:ℤ) ≤ (if r - ⌊r⌋ < 1/2 then (⌊r⌋:ℤ)
        else if r - ⌊r⌋ > 1/2 then ⌊r⌋ + 1
        else if ⌊r⌋ % 2 = 0 then ⌊r⌋ else ⌊r⌋ + 1) := by
      split_ifs <;> omega
    calc _ ≤ ⌊q⌋ + 1 := hL
    _ ≤ ⌊r⌋ := by omega
    _ ≤ _ := hR
  · rw [← heq]
    have hqr : q - ⌊q⌋ ≤ r - ⌊q⌋ := by linarith
    rw [← heq] at hr0
    split_ifs <;> first | omega | linarith

lemma round2_mono {q r : ℚ} (h : q ≤ r) : round2 q ≤ round2 r := by
  unfold round2
  have h1 : roundHalfEven (q * 100) ≤ roundHalfEven (r * 100) :=
    roundHalfEven_mono (by linarith)
  have h2 : ((roundHalfEven (q * 100) : ℤ) : ℚ) ≤ ((roundHalfEven (r * 100) : ℤ) : ℚ) :=
    Int.cast_le.mpr h1
  linarith

lemma calculate_copy_size_le (s : Settings) (resolved : ResolvedSettings)
    (t : UpstreamTrade) (daily trader_daily M : ℚ)
    (hmin : resolved.min_copy_size ≤ M) (hmax : resolved.max_copy_size ≤ M)
    (hM2 : round2 M = M) :
    calculate_copy_size s resolved t daily trader_daily ≤ M := by
  unfold calculate_copy_size
  dsimp only
  simp only [if_gt_eq_min]
  split_ifs <;> first
    | exact hmin
    | (rw [← hM2]
       apply round2_mono
       exact le_trans (min_le_left _ _)
        (le_trans (min_le_left _ _) (le_trans (min_le_right _ _) hmax)))

lemma should_copy_accept_daily_lt {seen : List String} {s : Settings}
    {tr : FollowedTrader} {t : UpstreamTrade} {now daily trader_daily : ℚ}
    (h : should_copy seen s tr t now daily trader_daily = CopyDecision.accept) :
    daily < s.max_daily_spend := by
  unfold should_copy at h
  dsimp only at h
  split_ifs at h <;> simp_all

lemma get_daily_spend_append (l : List TradeRow) (row : TradeRow)
    (st : String) (today : ℤ) (u : Option String) :
    get_daily_spend (l ++ [row]) st today u
      = get_daily_spend l st today u
        + (if daily_filter st today u row then row.amount else 0) := by
  unfold get_daily_spend
  rw [List.filter_append, List.map_append, List.sum_append]
  congr 1
  by_cases hp : daily_filter st today u row <;> simp [List.filter, hp]

lemma get_daily_spend_append_le (l : List TradeRow) (row : TradeRow)
    (st : String) (today : ℤ) (u : Option String) :
    get_daily_spend (l ++ [row]) st today u
      ≤ get_daily_spend l st today u + max 0 row.amount := by
  have h1 := le_max_left (0:ℚ) row.amount
  have h2 := le_max_right (0:ℚ) row.amount
  rw [get_daily_spend_append]
  split_ifs <;> linarith

lemma execute_copy_daily_bound (s : Settings) (tr : FollowedTrader)
    (t : UpstreamTrade) (user : String) (today : ℤ) (dry : Bool)
    (o : OrderResult) (db : DBState) (M : ℚ)
    (hmin : (resolve_settings s tr).min_copy_size ≤ M)
    (hmax : (resolve_settings s tr).max_copy_size ≤ M)
    (hM0 : 0 ≤ M) (hM2 : round2 M = M)
    (hdaily : get_daily_spend db.trades "copy" today (user_filter user)
      < s.max_daily_spend) :
    get_daily_spend (execute_copy s tr t user today dry o db).db.trades
      "copy" today (user_filter user) ≤ s.max_daily_spend + M := by
  have hsz := calculate_copy_size_le s (resolve_settings s tr) t
    (get_daily_spend db.trades "copy" today (user_filter user))
    (get_trader_daily_spend db.trades tr.address today (user_filter user))
    M hmin hmax hM2
  unfold execute_copy
  dsimp only
  by_cases h0 : calculate_copy_size s (resolve_settings s tr) t
      (get_daily_spend db.trades "copy" today (user_filter user))
      (get_trader_daily_spend db.trades tr.address today (user_filter user)) ≤ 0
  · rw [if_pos h0]
    dsimp only
    linarith
  · rw [if_neg h0]
    dsimp only
    refine le_trans (get_daily_spend_append_le _ _ _ _ _) ?_
    dsimp only
    rw [max_eq_right (le_of_lt (not_le.mp h0))]
    linarith

lemma poll_step_daily_bound (s : Settings) (tr : FollowedTrader)
    (t : UpstreamTrade) (user : String) (today : ℤ) (now : ℚ) (dry : Bool)
    (o : OrderResult) (db : DBState) (M : ℚ)
    (hmin : (resolve_settings s tr).min_copy_size ≤ M)
    (hmax : (resolve_settings s tr).max_copy_size ≤ M)
    (hM0 : 0 ≤ M) (hM2 : round2 M = M)
    (hinit : get_daily_spend db.trades "copy" today (user_filter user)
      ≤ s.max_daily_spend + M) :
    get_daily_spend (poll_step s tr t user today now dry o db).1.trades
      "copy" today (user_filter user) ≤ s.max_daily_spend + M := by
  unfold poll_step
  dsimp only
  cases hsc : should_copy db.seen s tr t now
      (get_daily_spend db.trades "copy" today (user_filter user))
      (get_trader_daily_spend db.trades tr.address today (user_filter user)) with
  | reject r m =>
      dsimp only
      split
      · exact hinit
      · exact hinit
  | accept =>
      dsimp only
      exact execute_copy_daily_bound s tr t user today dry o db M hmin hmax hM0 hM2
        (should_copy_accept_daily_lt hsc)

/-- C4: over any sequence of worker steps, the executed copy-strategy
spend for the day never exceeds `max_daily_spend` plus one maximal single
order — `M` bounds every single order (it dominates each step's resolved
`min_copy_size` and `max_copy_size` and is stable under 2-decimal
rounding): if the day's executed spend starts at most `cap + M`, it stays
at most `cap + M`, because each admission re-checks the recorded spend
against the cap and each accepted amount is at most `M`. -/
theorem daily_spend_cap_invariant :
    ∀ (inputs : List PollInput) (s : Settings) (user : String) (today : ℤ)
      (dry : Bool) (M : ℚ) (db : DBState),
      0 ≤ M → round2 M = M →
      (∀ inp ∈ inputs, (resolve_settings s inp.trader).min_copy_size ≤ M ∧
        (resolve_settings s inp.trader).max_copy_size ≤ M) →
      get_daily_spend db.trades "copy" today (user_filter user)
        ≤ s.max_daily_spend + M →
      get_daily_spend (poll_run s user today dry db inputs).trades
        "copy" today (user_filter user) ≤ s.max_daily_spend + M := by
  intro inputs
  induction inputs with
  | nil =>
      intro s user today dry M db _ _ _ hinit
      exact hinit
  | cons inp rest ih =>
      intro s user today dry M db hM0 hM2 hall hinit
      have hstep := poll_step_daily_bound s inp.trader inp.trade user today
        inp.now dry inp.outcome db M (hall inp (List.mem_cons_self _ _)).1
        (hall inp (List.mem_cons_self _ _)).2 hM0 hM2 hinit
      exact ih s user today dry M _ hM0 hM2
        (fun i hi => hall i (List.mem_cons_of_mem _ hi)) hstep

/-- C4 witness: a concrete two-step run under default settings with
`M = 100` (the default `max_copy_size`). -/
theorem daily_spend_cap_invariant_witness :
    get_daily_spend (poll_run defaultSettings "0xuser" 0 false emptyDB
        [⟨defaultTrader, sampleTrade, 0, OrderResult.success⟩,
         ⟨defaultTrader, sampleTrade, 0, OrderResult.success⟩]).trades
      "copy" 0 (user_filter "0xuser") ≤ defaultSettings.max_daily_spend + 100 :=
  daily_spend_cap_invariant
    [⟨defaultTrader, sampleTrade, 0, OrderResult.success⟩,
     ⟨defaultTrader, sampleTrade, 0, OrderResult.success⟩]
    defaultSettings "0xuser" 0 false 100 emptyDB
    (by norm_num)
    (by norm_num [round2, roundHalfEven, Int.floor_eq_iff])
    (by
      intro inp hi
      simp only [List.mem_cons, List.not_mem_nil, or_false] at hi
      rcases hi with h2 | h2 <;> rw [h2] <;>
        norm_num [resolve_settings, defaultTrader, defaultSettings])
    (by norm_num [get_daily_spend, emptyDB, defaultSettings])

/-! ## C5: limit price capping -/

/-- C5 counterexample: for trader price 0.005, BUY, slippage 0%, the code
returns limit 0.005 — not the claimed `clamp(p×(1+s), 0.01, 0.99) = 0.01`
— and 0.005 lies outside [0.01, 0.99]. -/
theorem limit_price_clamp_cex :
    calculate_limit_price defaultSettings (1/200) "BUY" (some 0) = some (1/200)
    ∧ clamp ((1/200) * (1 + 0)) (1/100) (99/100) = 1/100
    ∧ (1/200 : ℚ) < 1/100 := by
  refine ⟨?_, ?_, by norm_num⟩
  · norm_num [calculate_limit_price, round4, roundHalfEven, Int.floor_eq_iff]
  · norm_num [clamp]

/-- C5 (amended): the computed limit price is
`min (round4 (p × (1 + slippage)), 0.99)` for BUY — capped above at 0.99
but not floored — and `max (round4 (p × (1 − slippage)), 0.01)` for SELL —
floored at 0.01 but not capped; the submitted share count of a limit-mode
copy equals `round2 (copyUsd / limitPrice)`; and for p = 0.90 with 5%
slippage on BUY the limit is 0.945. -/
theorem limit_price_one_sided_cap :
    (∀ (s : Settings) (p spct : ℚ), 0 < p →
      calculate_limit_price s p "BUY" (some spct)
        = some (min (round4 (p * (1 + spct / 100))) (99/100))
      ∧ ∀ lp, calculate_limit_price s p "BUY" (some spct) = some lp → lp ≤ 99/100)
    ∧ (∀ (s : Settings) (p spct : ℚ) (side : String), 0 < p → side ≠ "BUY" →
      calculate_limit_price s p side (some spct)
        = some (max (round4 (p * (1 - spct / 100))) (1/100))
      ∧ ∀ lp, calculate_limit_price s p side (some spct) = some lp → 1/100 ≤ lp)
    ∧ (∀ (s : Settings) (tr : FollowedTrader) (t : UpstreamTrade) (user : String)
        (today : ℤ) (o : OrderResult) (db : DBState) (lp : ℚ),
        (resolve_settings s tr).order_mode = "limit" →
        calculate_limit_price s t.price t.side (some (resolve_settings s tr).limit_order_pct)
          = some lp →
        0 < lp →
        ¬ calculate_copy_size s (resolve_settings s tr) t
            (get_daily_spend db.trades "copy" today (user_filter user))
            (get_trader_daily_spend db.trades tr.address today (user_filter user)) ≤ 0 →
        ∃ rest, (execute_copy s tr t user today false o db).trace
          = Action.markSeen (get_trade_id t)
            :: Action.placeLimitOrder ((usable_token t).getD "") lp
                (round2 ((calculate_copy_size s (resolve_settings s tr) t
                  (get_daily_spend db.trades "copy" today (user_filter user))
                  (get_trader_daily_spend db.trades tr.address today (user_filter user))) / lp))
                t.side
            :: rest)
    ∧ calculate_limit_price defaultSettings (9/10) "BUY" (some 5) = some (189/200) := by
  refine ⟨?_, ?_, ?_, ?_⟩
  · intro s p spct hp
    unfold calculate_limit_price
    dsimp only
    rw [if_neg (not_le.mpr hp), if_pos rfl]
    constructor
    · rfl
    · intro lp hlp
      rw [← Option.some.inj hlp]
      exact min_le_right _ _
  · intro s p spct side hp hside
    unfold calculate_limit_price
    dsimp only
    rw [if_neg (not_le.mpr hp), if_neg hside]
    constructor
    · rfl
    · intro lp hlp
      rw [← Option.some.inj hlp]
      exact le_max_right _ _
  · intro s tr t user today o db lp hmode hlp hlp0 hsz
    have huse : ((resolve_settings s tr).order_mode = "limit"
        ∧ 0 < (calculate_limit_price s t.price t.side
            (some (resolve_settings s tr).limit_order_pct)).getD 0) := by
      rw [hlp]
      exact ⟨hmode, hlp0⟩
    unfold execute_copy
    dsimp only
    rw [if_neg hsz]
    dsimp only
    simp only [if_pos huse]
    rw [hlp]
    exact ⟨_, rfl⟩
  · norm_num [calculate_limit_price, round4, roundHalfEven, Int.floor_eq_iff]

/-- C5 witness: the three general parts applied at concrete inputs
(p = 0.9, 5% slippage for BUY/SELL; the default limit-mode pipeline on
`sampleTrade`, whose limit price is 0.4284). -/
theorem limit_price_one_sided_cap_witness :
    calculate_limit_price defaultSettings (9/10) "BUY" (some 5)
      = some (min (round4 ((9/10) * (1 + 5 / 100))) (99/100))
    ∧ calculate_limit_price defaultSettings (9/10) "SELL" (some 5)
      = some (max (round4 ((9/10) * (1 - 5 / 100))) (1/100))
    ∧ ∃ rest, (execute_copy defaultSettings defaultTrader sampleTrade "0xuser" 0 false
        OrderResult.success emptyDB).trace
      = Action.markSeen (get_trade_id sampleTrade)
        :: Action.placeLimitOrder ((usable_token sampleTrade).getD "") (1071/2500)
            (round2 ((calculate_copy_size defaultSettings
              (resolve_settings defaultSettings defaultTrader) sampleTrade
              (get_daily_spend emptyDB.trades "copy" 0 (user_filter "0xuser"))
              (get_trader_daily_spend emptyDB.trades defaultTrader.address 0
                (user_filter "0xuser"))) / (1071/2500)))
            sampleTrade.side
        :: rest :=
  ⟨(limit_price_one_sided_cap.1 defaultSettings (9/10) 5 (by norm_num)).1,
   (limit_price_one_sided_cap.2.1 defaultSettings (9/10) 5 "SELL" (by norm_num)
      (by simp +decide)).1,
   limit_price_one_sided_cap.2.2.1 defaultSettings defaultTrader sampleTrade "0xuser" 0
     OrderResult.success emptyDB (1071/2500)
     (by simp +decide [resolve_settings, defaultTrader, defaultSettings])
     (by
       norm_num [calculate_limit_price, round4, roundHalfEven, resolve_settings,
         defaultTrader, defaultSettings, sampleTrade, Int.floor_eq_iff])
     (by norm_num)
     (by
       norm_num [calculate_copy_size, resolve_settings, defaultTrader, defaultSettings,
         sampleTrade, get_daily_spend, get_trader_daily_spend, emptyDB, round2,
         roundHalfEven, Int.floor_eq_iff])⟩

/-! ## C6: fund copy sizing versus the 5%-of-AUM cap -/

/-- C6 counterexample: with default settings, AUM 10, weight 1 and an
upstream size of 100 USD the code returns 5 — the `min_copy_size` floor is
applied after the AUM cap — which exceeds 5% of AUM (0.5) and differs from
the claimed `min(originalUsd × copyPct × w, min(maxCopy, 0.05 × AUM))`. -/
theorem fund_copy_size_aum_cap_cex :
    calculate_fund_copy_size defaultSettings 10 1 100 = 5
    ∧ min (100 * (1/10) * 1) (min defaultSettings.max_copy_size ((5/100) * 10)) = 1/2
    ∧ (5 : ℚ) ≠ 1/2
    ∧ (5/100 : ℚ) * 10 < 5 := by
  refine ⟨?_, ?_, by norm_num, by norm_num⟩
  · norm_num [calculate_fund_copy_size, defaultSettings, round2, roundHalfEven,
      Int.floor_eq_iff]
  · norm_num [defaultSettings]

/-- C6 (amended): the fund copy size is `originalUsd × copyPct × w` first
capped at `0.05 × AUM`, then floored at `min_copy_size`, then capped at
`max_copy_size`, rounded to 2 decimals — so it can exceed 5% of AUM
exactly when the `min_copy_size` floor forces it; when `total_aum ≤ 0`
the size is 0 and `execute_fund_trade` leaves the database untouched and
submits no order. -/
theorem fund_copy_size_formula :
    (∀ (s : Settings) (aum w orig : ℚ), ¬ aum ≤ 0 →
      calculate_fund_copy_size s aum w orig
        = round2 (min (max (min (orig * s.copy_percentage * w) (aum * (5/100)))
            s.min_copy_size) s.max_copy_size))
    ∧ (∀ (s : Settings) (aum w orig : ℚ), aum ≤ 0 →
      calculate_fund_copy_size s aum w orig = 0)
    ∧ (∀ (s : Settings) (fund_id : ℕ) (aum : ℚ) (t : UpstreamTrade)
        (trader : String) (w : ℚ) (dry ok : Bool) (today : ℤ) (db : DBState),
        aum ≤ 0 →
        execute_fund_trade s fund_id aum t trader w dry ok today db
          = { db := db, trace := [], ok := false }) := by
  refine ⟨?_, ?_, ?_⟩
  · intro s aum w orig h
    unfold calculate_fund_copy_size
    rw [if_neg h]
  · intro s aum w orig h
    unfold calculate_fund_copy_size
    rw [if_pos h]
  · intro s fund_id aum t trader w dry ok today db h
    unfold execute_fund_trade
    dsimp only
    rw [show calculate_fund_copy_size s aum w
        (if t.price > 0 then t.size * t.price else t.size) = 0 by
      unfold calculate_fund_copy_size
      rw [if_pos h]]
    rw [if_pos le_rfl]

/-- C6 witness: the three parts applied at concrete inputs (AUM 10 for the
positive case, AUM 0 for the degenerate one). -/
theorem fund_copy_size_formula_witness :
    calculate_fund_copy_size defaultSettings 10 1 100
      = round2 (min (max (min (100 * defaultSettings.copy_percentage * 1) (10 * (5/100)))
          defaultSettings.min_copy_size) defaultSettings.max_copy_size)
    ∧ calculate_fund_copy_size defaultSettings 0 1 100 = 0
    ∧ execute_fund_trade defaultSettings 1 0 sampleTrade "0xtrader" 1 false true 0 emptyDB
        = { db := emptyDB, trace := [], ok := false } :=
  ⟨fund_copy_size_formula.1 defaultSettings 10 1 100 (by norm_num),
   fund_copy_size_formula.2.1 defaultSettings 0 1 100 le_rfl,
   fund_copy_size_formula.2.2 defaultSettings 1 0 sampleTrade "0xtrader" 1 false true 0
     emptyDB le_rfl⟩

/-! ## C7: arbitrage qualification and proportional split -/

/-- Default settings with the scenario values `tradeAmount = 100`,
`maxPositionSize = 100`, `minProfitPct = 1`. -/
def arbSettings : Settings :=
  { defaultSettings with trade_amount := 100, max_position_size := 100, min_profit_pct := 1 }

/-- The opportunity of the spec scenario `yes = 0.48`, `no = 0.50`. -/
def arbOpp : Opportunity where
  yes_token := "Y"
  no_token := "N"
  yes_price := 12/25
  no_price := 1/2
  combined_cost := 49/50
  profit := 1/50
  profit_pct := 100/49

/-- C7: with both prices available, a pair qualifies iff `0 < c < 1` and
`(1−c)/c × 100 ≥ minProfitPct`; execution submits the two legs as market
orders with the proportional USD split `u_yes = U × p_yes / c`,
`u_no = U × p_no / c` for `U = min(tradeAmount, maxPositionSize)`, whose
sum is exactly `U`; and the scenario `yes=0.48, no=0.50, U=100,
minProfitPct=1` qualifies with profit `100/49 ≈ 2.04%` and records two
executed rows of amounts `2400/49 ≈ 48.98` and `2500/49 ≈ 51.02`. -/
theorem arbitrage_qualify_split :
    (∀ (s : Settings) (a b : String) (y n : ℚ),
      check_opportunity s a b (some y) (some n) ≠ none ↔
        (0 < y + n ∧ y + n < 1 ∧ s.min_profit_pct ≤ (1 - (y + n)) / (y + n) * 100))
    ∧ (∀ (s : Settings) (opp : Opportunity) (user : String) (today : ℤ)
        (r1 r2 : OrderResult) (db : DBState),
        opp.combined_cost = opp.yes_price + opp.no_price →
        opp.combined_cost ≠ 0 →
        (execute_arbitrage s opp user today r1 r2 db).trace
          = [Action.placeMarketOrder opp.yes_token
                (min s.trade_amount s.max_position_size * (opp.yes_price / opp.combined_cost)) "BUY",
             Action.placeMarketOrder opp.no_token
                (min s.trade_amount s.max_position_size * (opp.no_price / opp.combined_cost)) "BUY",
             Action.recordTrade (if leg_ok r1 then "executed" else "failed"),
             Action.recordTrade (if leg_ok r2 then "executed" else "failed")]
        ∧ min s.trade_amount s.max_position_size * (opp.yes_price / opp.combined_cost)
            + min s.trade_amount s.max_position_size * (opp.no_price / opp.combined_cost)
          = min s.trade_amount s.max_position_size)
    ∧ check_opportunity arbSettings "Y" "N" (some (48/100)) (some (50/100)) = some arbOpp
    ∧ ((execute_arbitrage arbSettings arbOpp "u" 0 OrderResult.success OrderResult.success
          emptyDB).db.trades.map (fun r => (r.amount, r.status))
        = [(2400/49, "executed"), (2500/49, "executed")]
       ∧ round2 (2400/49) = 2449/50 ∧ round2 (2500/49) = 2551/50) := by
  refine ⟨?_, ?_, ?_, ?_, ?_, ?_⟩
  · intro s a b y n
    unfold check_opportunity
    dsimp only
    split_ifs with h1 h2
    · simp only [ne_eq, not_true_eq_false, false_iff, not_and, not_le]
      intro hc0 hc1
      rcases h1 with h | h
      · linarith
      · linarith
    · simp only [ne_eq, not_true_eq_false, false_iff, not_and, not_le]
      intro hc0 hc1
      linarith
    · push_neg at h1 h2
      simp only [ne_eq, reduceCtorEq, not_false_eq_true, true_iff]
      exact ⟨h1.2, h1.1, h2⟩
  · intro s opp user today r1 r2 db hc hc0
    constructor
    · unfold execute_arbitrage
      rfl
    · rw [← mul_add, div_add_div_same, ← hc, div_self hc0, mul_one]
  · norm_num [check_opportunity, arbSettings, defaultSettings, arbOpp]
  · norm_num [execute_arbitrage, arbOpp, arbSettings, defaultSettings, emptyDB, leg_ok]
  · norm_num [round2, roundHalfEven, Int.floor_eq_iff]
  · norm_num [round2, roundHalfEven, Int.floor_eq_iff]

/-- C7 witness: the two general parts applied at the scenario input. -/
theorem arbitrage_qualify_split_witness :
    (check_opportunity arbSettings "Y" "N" (some (48/100)) (some (50/100)) ≠ none
      ↔ (0 < (48/100 : ℚ) + 50/100 ∧ (48/100 : ℚ) + 50/100 < 1
          ∧ arbSettings.min_profit_pct ≤ (1 - ((48/100 : ℚ) + 50/100)) / ((48/100 : ℚ) + 50/100) * 100))
    ∧ (execute_arbitrage arbSettings arbOpp "u" 0 OrderResult.success OrderResult.success
        emptyDB).trace
      = [Action.placeMarketOrder arbOpp.yes_token
            (min arbSettings.trade_amount arbSettings.max_position_size
              * (arbOpp.yes_price / arbOpp.combined_cost)) "BUY",
         Action.placeMarketOrder arbOpp.no_token
            (min arbSettings.trade_amount arbSettings.max_position_size
              * (arbOpp.no_price / arbOpp.combined_cost)) "BUY",
         Action.recordTrade (if leg_ok OrderResult.success then "executed" else "failed"),
         Action.recordTrade (if leg_ok OrderResult.success then "executed" else "failed")] :=
  ⟨arbitrage_qualify_split.1 arbSettings "Y" "N" (48/100) (50/100),
   (arbitrage_qualify_split.2.1 arbSettings arbOpp "u" 0 OrderResult.success
      OrderResult.success emptyDB (by norm_num [arbOpp]) (by norm_num [arbOpp])).1⟩

/-! ## C8: recording of failed gateway orders -/

lemma mark_trade_seen_mem (seen : List String) (tid : String) :
    tid ∈ mark_trade_seen seen tid := by
  unfold mark_trade_seen
  split_ifs with h
  · exact h
  · exact List.mem_cons_self _ _

lemma should_copy_already_seen (seen : List String) (s : Settings)
    (tr : FollowedTrader) (t : UpstreamTrade) (now daily trader_daily : ℚ)
    (h : get_trade_id t ∈ seen) :
    should_copy seen s tr t now daily trader_daily
      = CopyDecision.reject RejectReason.alreadySeen false := by
  unfold should_copy
  dsimp only
  rw [if_pos h]

lemma order_status_of_ne_success {o : OrderResult} (h : o ≠ OrderResult.success) :
    order_status o = "failed" := by
  cases o <;> simp_all [order_status]

/-- C8: when the gateway order call of a live copy (positive size) fails —
error dict, empty result, or exception — exactly one trade row is appended,
with `status = "failed"` and the upstream reason in `notes`; the positions
and per-trader counters are untouched; `execute_copy` returns false; and
the fingerprint is marked seen, so any later `should_copy` for this
candidate rejects it as `already_seen` whatever the settings, trader or
user. -/
theorem failed_order_recording (s : Settings) (tr : FollowedTrader)
    (t : UpstreamTrade) (user : String) (today : ℤ) (o : OrderResult) (db : DBState)
    (ho : o ≠ OrderResult.success) (hr : order_fail_reason o ≠ "")
    (hsz : ¬ calculate_copy_size s (resolve_settings s tr) t
      (get_daily_spend db.trades "copy" today (user_filter user))
      (get_trader_daily_spend db.trades tr.address today (user_filter user)) ≤ 0) :
    (execute_copy s tr t user today false o db).db.trades
      = db.trades ++
        [{ strategy := "copy", token_id := (usable_token t).getD "", side := t.side,
           amount := calculate_copy_size s (resolve_settings s tr) t
             (get_daily_spend db.trades "copy" today (user_filter user))
             (get_trader_daily_spend db.trades tr.address today (user_filter user)),
           price := t.price, expected_profit := 0, copied_from := tr.address,
           original_trade_id := get_trade_id t, status := "failed",
           notes := some (order_fail_reason o), user_address := user, day := today }]
    ∧ (execute_copy s tr t user today false o db).db.positions = db.positions
    ∧ (execute_copy s tr t user today false o db).db.stats = db.stats
    ∧ (execute_copy s tr t user today false o db).ok = false
    ∧ get_trade_id t ∈ (execute_copy s tr t user today false o db).db.seen
    ∧ (∀ (s2 : Settings) (tr2 : FollowedTrader) (now d td : ℚ),
        should_copy (execute_copy s tr t user today false o db).db.seen s2 tr2 t now d td
          = CopyDecision.reject RejectReason.alreadySeen false) := by
  have hst := order_status_of_ne_success ho
  unfold execute_copy
  dsimp only
  rw [if_neg hsz]
  dsimp only
  simp only [Bool.false_eq_true, if_false]
  rw [hst]
  refine ⟨?_, ?_, ?_, ?_, ?_, ?_⟩
  · rw [if_neg hr]
  · rw [if_neg (by simp : ¬ (("failed" : String) = "executed" ∧ t.price > 0))]
  · rw [if_neg (by simp : ("failed" : String) ≠ "executed")]
  · simp
  · exact mark_trade_seen_mem _ _
  · intro s2 tr2 now d td
    exact should_copy_already_seen _ s2 tr2 t now d td (mark_trade_seen_mem _ _)

/-- C8 witness: a concrete error-dict failure on `sampleTrade`. -/
theorem failed_order_recording_witness :
    (execute_copy defaultSettings defaultTrader sampleTrade "0xuser" 0 false
        (OrderResult.errorResult "not enough balance") emptyDB).db.trades
      = emptyDB.trades ++
        [{ strategy := "copy", token_id := (usable_token sampleTrade).getD "",
           side := sampleTrade.side,
           amount := calculate_copy_size defaultSettings
             (resolve_settings defaultSettings defaultTrader) sampleTrade
             (get_daily_spend emptyDB.trades "copy" 0 (user_filter "0xuser"))
             (get_trader_daily_spend emptyDB.trades defaultTrader.address 0
               (user_filter "0xuser")),
           price := sampleTrade.price, expected_profit := 0,
           copied_from := defaultTrader.address,
           original_trade_id := get_trade_id sampleTrade, status := "failed",
           notes := some (order_fail_reason (OrderResult.errorResult "not enough balance")),
           user_address := "0xuser", day := 0 }]
    ∧ (execute_copy defaultSettings defaultTrader sampleTrade "0xuser" 0 false
        (OrderResult.errorResult "not enough balance") emptyDB).db.positions
      = emptyDB.positions
    ∧ (execute_copy defaultSettings defaultTrader sampleTrade "0xuser" 0 false
        (OrderResult.errorResult "not enough balance") emptyDB).db.stats = emptyDB.stats
    ∧ (execute_copy defaultSettings defaultTrader sampleTrade "0xuser" 0 false
        (OrderResult.errorResult "not enough balance") emptyDB).ok = false
    ∧ get_trade_id sampleTrade ∈ (execute_copy defaultSettings defaultTrader sampleTrade
        "0xuser" 0 false (OrderResult.errorResult "not enough balance") emptyDB).db.seen
    ∧ (∀ (s2 : Settings) (tr2 : FollowedTrader) (now d td : ℚ),
        should_copy (execute_copy defaultSettings defaultTrader sampleTrade "0xuser" 0
            false (OrderResult.errorResult "not enough balance") emptyDB).db.seen
          s2 tr2 sampleTrade now d td
          = CopyDecision.reject RejectReason.alreadySeen false) :=
  failed_order_recording defaultSettings defaultTrader sampleTrade "0xuser" 0
    (OrderResult.errorResult "not enough balance") emptyDB
    (by simp)
    (by simp [order_fail_reason])
    (by norm_num [calculate_copy_size, resolve_settings, defaultTrader, defaultSettings,
      sampleTrade, get_daily_spend, get_trader_daily_spend, emptyDB, round2,
      roundHalfEven, Int.floor_eq_iff])

/-! ## C9: invest followed by withdraw at unchanged NAV -/

/-- The `fund_investments` row `invest_in_fund` creates. -/
def invest_record (investments : List FundInvestment) (fund_id : ℕ)
    (investor : String) (u nav : ℚ) : FundInvestment where
  id := fresh_inv_id investments
  fund_id := fund_id
  investor_address := investor
  amount_invested := u
  shares := u / nav
  status := "active"

/-- The database state after `invest_in_fund` credits the fund. -/
def invested_db (db : FundDB) (fund_id : ℕ) (investor : String) (u : ℚ)
    (fund : Fund) : FundDB where
  funds := db.funds.map fun f =>
    if f.id == fund_id then
      { f with total_aum := f.total_aum + u,
               total_shares := f.total_shares + u / fund.nav_per_share }
    else f
  investments := db.investments
    ++ [invest_record db.investments fund_id investor u fund.nav_per_share]

lemma lt_fresh_inv_id {l : List FundInvestment} {q : FundInvestment}
    (h : q ∈ l) : q.id < fresh_inv_id l := by
  induction l with
  | nil => cases h
  | cons hd tl ih =>
      simp only [fresh_inv_id, List.foldr] at *
      rcases List.mem_cons.mp h with h2 | h2
      · subst h2
        omega
      · have := ih h2
        omega

lemma find_fund_by_id {l : List Fund} {fund : Fund}
    (hu : List.Pairwise (fun a b => a.id ≠ b.id) l) (hm : fund ∈ l) :
    l.find? (fun f => f.id == fund.id) = some fund := by
  induction l with
  | nil => cases hm
  | cons hd tl ih =>
      rcases List.mem_cons.mp hm with h2 | h2
      · subst h2
        exact List.find?_cons_of_pos _ (by simp)
      · have hne : hd.id ≠ fund.id := (List.pairwise_cons.mp hu).1 fund h2
        rw [List.find?_cons_of_neg _ (by simp [hne])]
        exact ih (List.pairwise_cons.mp hu).2 h2

/-- C9: on an active fund with positive NAV, `invest(u)` credits
`u / nav` shares and adds `u` to AUM; the immediate `withdraw` of that
investment (no NAV change in between) pays out exactly `u`, marks the
investment row withdrawn, and restores every fund row — in particular
`total_aum` and `total_shares` — to its pre-invest value. -/
theorem invest_withdraw_roundtrip (db : FundDB) (fund_id : ℕ) (investor : String)
    (u : ℚ) (fund : Fund)
    (hu : List.Pairwise (fun a b => a.id ≠ b.id) db.funds)
    (hf : db.funds.find? (fun f => f.id == fund_id && f.active) = some fund)
    (hn : 0 < fund.nav_per_share) :
    invest_in_fund db fund_id investor u
      = some (invested_db db fund_id investor u fund,
              invest_record db.investments fund_id investor u fund.nav_per_share)
    ∧ withdraw_from_fund (invested_db db fund_id investor u fund)
        (fresh_inv_id db.investments) investor
      = some ({ funds := db.funds,
                investments := db.investments
                  ++ [{ invest_record db.investments fund_id investor u fund.nav_per_share
                        with status := "withdrawn" }] }, u) := by
  have hp := List.find?_some hf
  simp only [Bool.and_eq_true, beq_iff_eq] at hp
  have hid : fund.id = fund_id := hp.1
  constructor
  · unfold invest_in_fund
    rw [hf]
    rfl
  · have hfind_inv : (db.investments
        ++ [invest_record db.investments fund_id investor u fund.nav_per_share]).find?
          (fun q => q.id == fresh_inv_id db.investments
            && q.investor_address == investor && q.status == "active")
        = some (invest_record db.investments fund_id investor u fund.nav_per_share) := by
      rw [List.find?_append]
      have h1 : db.investments.find?
          (fun q => q.id == fresh_inv_id db.investments
            && q.investor_address == investor && q.status == "active") = none := by
        rw [List.find?_eq_none]
        intro q hq hpq
        simp only [Bool.and_eq_true, beq_iff_eq] at hpq
        exact absurd hpq.1.1 (Nat.ne_of_lt (lt_fresh_inv_id hq))
      rw [h1]
      simp [invest_record, List.find?]
    have hfind0 : db.funds.find? (fun f => f.id == fund_id) = some fund := by
      have h2 := find_fund_by_id hu (List.mem_of_find?_eq_some hf)
      rwa [hid] at h2
    have hcomp : ((fun f : Fund => f.id == fund_id) ∘ (fun f : Fund =>
        if f.id == fund_id then
          { f with total_aum := f.total_aum + u,
                   total_shares := f.total_shares + u / fund.nav_per_share }
        else f)) = (fun f : Fund => f.id == fund_id) := by
      funext f
      simp only [Function.comp]
      split <;> rfl
    have hfind_fund : (db.funds.map fun f =>
        if f.id == fund_id then
          { f with total_aum := f.total_aum + u,
                   total_shares := f.total_shares + u / fund.nav_per_share }
        else f).find? (fun f => f.id == fund_id)
        = some { fund with
                  total_aum := fund.total_aum + u,
                  total_shares := fund.total_shares + u / fund.nav_per_share } := by
      rw [List.find?_map, hcomp, hfind0]
      dsimp only [Option.map]
      rw [if_pos (by simp [hid])]
    have hamt : u / fund.nav_per_share * fund.nav_per_share = u :=
      div_mul_cancel₀ u (ne_of_gt hn)
    unfold withdraw_from_fund
    dsimp only [invested_db]
    rw [hfind_inv]
    dsimp only [invest_record]
    rw [hfind_fund]
    dsimp only
    have hfunds : ((db.funds.map fun f =>
        if f.id == fund_id then
          { f with total_aum := f.total_aum + u,
                   total_shares := f.total_shares + u / fund.nav_per_share }
        else f).map fun f =>
          if f.id == fund_id then
            { f with
                total_aum := f.total_aum - u / fund.nav_per_share * fund.nav_per_share,
                total_shares := f.total_shares - u / fund.nav_per_share }
          else f) = db.funds := by
      rw [List.map_map]
      refine (List.map_congr_left ?_).trans (List.map_id _)
      intro f _
      simp only [Function.comp]
      by_cases hc : (f.id == fund_id) = true
      · rw [if_pos hc, if_pos hc, hamt]
        simp only [id_eq]
        cases f
        congr 1 <;> ring
      · rw [if_neg hc, if_neg hc]
        rfl
    have hinvs : ((db.investments
        ++ [invest_record db.investments fund_id investor u fund.nav_per_share]).map
          fun q => if q.id == fresh_inv_id db.investments
            then { q with status := "withdrawn" } else q)
        = db.investments
          ++ [{ invest_record db.investments fund_id investor u fund.nav_per_share
                with status := "withdrawn" }] := by
      rw [List.map_append]
      congr 1
      · refine (List.map_congr_left ?_).trans (List.map_id _)
        intro q hq
        rw [if_neg (by simp [Nat.ne_of_lt (lt_fresh_inv_id hq)])]
        rfl
      · simp [invest_record, List.map]
    dsimp only [invest_record] at hinvs
    rw [hfunds, hinvs, hamt]

/-- An active fund with AUM 250, NAV 1.25, 200 shares. -/
def fundA : Fund where
  id := 1
  owner_address := "0xowner"
  active := true
  total_aum := 250
  nav_per_share := 5/4
  total_shares := 200

/-- A fund database holding just `fundA` and no investments. -/
def fundDB0 : FundDB where
  funds := [fundA]
  investments := []

/-- C9 witness: invest 10 USD into `fundA` (NAV 1.25) and withdraw it. -/
theorem invest_withdraw_roundtrip_witness :
    invest_in_fund fundDB0 1 "inv" 10
      = some (invested_db fundDB0 1 "inv" 10 fundA,
              invest_record fundDB0.investments 1 "inv" 10 fundA.nav_per_share)
    ∧ withdraw_from_fund (invested_db fundDB0 1 "inv" 10 fundA)
        (fresh_inv_id fundDB0.investments) "inv"
      = some ({ funds := fundDB0.funds,
                investments := fundDB0.investments
                  ++ [{ invest_record fundDB0.investments 1 "inv" 10 fundA.nav_per_share
                        with status := "withdrawn" }] }, 10) :=
  invest_withdraw_roundtrip fundDB0 1 "inv" 10 fundA
    (by simp [fundDB0])
    (by simp [fundDB0, List.find?, fundA])
    (by norm_num [fundA])

/-! ## C10: the seen-trade set is keyed by fingerprint only and shared -/

/-- C10: the dedup ledger is keyed solely by the fingerprint string —
`mark_trade_seen` / the seen-set membership test take no user argument in
the model, mirroring the schema — so (1) once a fingerprint is in the
shared set, `should_copy` rejects it as `already_seen` for every settings
and trader row, i.e. for every user; (2) marking inserts the fingerprint;
and (3) any user's `execute_copy` leaves the candidate's fingerprint in
the shared set.  Hence two users following the same trader never both
copy the same unprefixed upstream trade. -/
theorem seen_set_shared_across_users :
    (∀ (seen : List String) (s : Settings) (tr : FollowedTrader) (t : UpstreamTrade)
      (now daily trader_daily : ℚ),
      get_trade_id t ∈ seen →
      should_copy seen s tr t now daily trader_daily
        = CopyDecision.reject RejectReason.alreadySeen false)
    ∧ (∀ (seen : List String) (tid : String), tid ∈ mark_trade_seen seen tid)
    ∧ (∀ (s : Settings) (tr : FollowedTrader) (t : UpstreamTrade) (user : String)
        (today : ℤ) (dry : Bool) (o : OrderResult) (db : DBState),
        get_trade_id t ∈ (execute_copy s tr t user today dry o db).db.seen) := by
  refine ⟨?_, ?_, ?_⟩
  · intro seen s tr t now daily trader_daily h
    exact should_copy_already_seen seen s tr t now daily trader_daily h
  · exact mark_trade_seen_mem
  · intro s tr t user today dry o db
    unfold execute_copy
    dsimp only
    split
    · exact mark_trade_seen_mem _ _
    · exact mark_trade_seen_mem _ _

/-- C10 witness: a fingerprint already in the shared set is rejected as
`already_seen` under default settings, and marking plus executing insert
it. -/
theorem seen_set_shared_across_users_witness :
    should_copy ["T1"] defaultSettings defaultTrader sampleTrade 0 0 0
      = CopyDecision.reject RejectReason.alreadySeen false
    ∧ "T1" ∈ mark_trade_seen [] "T1"
    ∧ get_trade_id sampleTrade ∈ (execute_copy defaultSettings defaultTrader sampleTrade
        "0xuser" 0 false OrderResult.success emptyDB).db.seen :=
  ⟨seen_set_shared_across_users.1 ["T1"] defaultSettings defaultTrader sampleTrade 0 0 0
      (by simp +decide [get_trade_id, sampleTrade, orStr]),
   seen_set_shared_across_users.2.1 [] "T1",
   seen_set_shared_across_users.2.2 defaultSettings defaultTrader sampleTrade "0xuser" 0
      false OrderResult.success emptyDB⟩

end Polybacker
